import Mathlib

/-!
Shallow embedding of the LR1110 secure-element implementation
(components/connectivity/LoraWAN/peripherals/lr1110-se/lr1110-se.c).

The underlying LR1110 crypto engine is an external collaborator: each
embedded operation takes the relevant engine call as a function argument
(a delegate) and records the calls it makes, so that call-count and
call-argument properties can be stated. Byte buffers are lists of
natural numbers below 256; machine integers are naturals with explicit
reductions where the source truncates.
-/

set_option autoImplicit false
set_option maxRecDepth 100000

namespace Lr1110Se

/-- Status codes of the secure-element abstraction (secure-element.h). -/
inductive SecureElementStatus_t
  | SECURE_ELEMENT_SUCCESS
  | SECURE_ELEMENT_FAIL_CMAC
  | SECURE_ELEMENT_ERROR_NPE
  | SECURE_ELEMENT_ERROR_BUF_SIZE
  | SECURE_ELEMENT_ERROR_DUMMY
  | SECURE_ELEMENT_ERROR
deriving DecidableEq

/-- Key slots of the LR1110 crypto engine (lr1110_crypto_engine.h); the
constructor names drop the common LR1110_CRYPTO_KEYS_IDX prefix of the
source identifiers. -/
inductive lr1110_crypto_keys_idx_t
  | GP0
  | GP1
  | APP_KEY
  | NWK_KEY
  | J_S_INT_KEY
  | J_S_ENC_KEY
  | F_NWK_S_INT_KEY
  | S_NWK_S_INT_KEY
  | NWK_S_ENC_KEY
  | APP_S_KEY
  | GP_KE_KEY_0
  | GP_KE_KEY_1
  | GP_KE_KEY_2
  | GP_KE_KEY_3
  | GP_KE_KEY_4
  | GP_KE_KEY_5
  | MC_APP_S_KEY_0
  | MC_NWK_S_KEY_0
  | MC_APP_S_KEY_1
  | MC_NWK_S_KEY_1
  | MC_APP_S_KEY_2
  | MC_NWK_S_KEY_2
  | MC_APP_S_KEY_3
  | MC_NWK_S_KEY_3
deriving DecidableEq

/-- Logical key identifiers of the secure-element interface. The 23
declared enumerators are those named in the switch of
convert_key_id_from_se_to_lr1110; the UNKNOWN constructor stands for any
integer value of the C enum type that is not one of the declared
enumerators (such a value is well defined in C and falls into the
default arm of the switch). -/
inductive KeyIdentifier_t
  | APP_KEY
  | NWK_KEY
  | J_S_INT_KEY
  | J_S_ENC_KEY
  | F_NWK_S_INT_KEY
  | S_NWK_S_INT_KEY
  | NWK_S_ENC_KEY
  | APP_S_KEY
  | MC_ROOT_KEY
  | MC_KE_KEY
  | MC_KEY_0
  | MC_APP_S_KEY_0
  | MC_NWK_S_KEY_0
  | MC_KEY_1
  | MC_APP_S_KEY_1
  | MC_NWK_S_KEY_1
  | MC_KEY_2
  | MC_APP_S_KEY_2
  | MC_NWK_S_KEY_2
  | MC_KEY_3
  | MC_APP_S_KEY_3
  | MC_NWK_S_KEY_3
  | SLOT_RAND_ZERO_KEY
  | UNKNOWN (n : Nat)
deriving DecidableEq

/-- Embeds the switch statement of lr1110-se.c lines 426 to 506: the
mapping from secure-element key identifiers to LR1110 engine slots. The
default arm of the switch yields GP1. -/
def convert_key_id_from_se_to_lr1110 : KeyIdentifier_t → lr1110_crypto_keys_idx_t
  | .APP_KEY => .APP_KEY
  | .NWK_KEY => .NWK_KEY
  | .J_S_INT_KEY => .J_S_INT_KEY
  | .J_S_ENC_KEY => .J_S_ENC_KEY
  | .F_NWK_S_INT_KEY => .F_NWK_S_INT_KEY
  | .S_NWK_S_INT_KEY => .S_NWK_S_INT_KEY
  | .NWK_S_ENC_KEY => .NWK_S_ENC_KEY
  | .APP_S_KEY => .APP_S_KEY
  | .MC_ROOT_KEY => .GP_KE_KEY_5
  | .MC_KE_KEY => .GP_KE_KEY_4
  | .MC_KEY_0 => .GP_KE_KEY_0
  | .MC_APP_S_KEY_0 => .MC_APP_S_KEY_0
  | .MC_NWK_S_KEY_0 => .MC_NWK_S_KEY_0
  | .MC_KEY_1 => .GP_KE_KEY_1
  | .MC_APP_S_KEY_1 => .MC_APP_S_KEY_1
  | .MC_NWK_S_KEY_1 => .MC_NWK_S_KEY_1
  | .MC_KEY_2 => .GP_KE_KEY_2
  | .MC_APP_S_KEY_2 => .MC_APP_S_KEY_2
  | .MC_NWK_S_KEY_2 => .MC_NWK_S_KEY_2
  | .MC_KEY_3 => .GP_KE_KEY_3
  | .MC_APP_S_KEY_3 => .MC_APP_S_KEY_3
  | .MC_NWK_S_KEY_3 => .MC_NWK_S_KEY_3
  | .SLOT_RAND_ZERO_KEY => .GP0
  | .UNKNOWN _ => .GP1

/-- memcpy of src into dst starting at byte offset off; bytes of dst
outside the written window are preserved. In the source every such copy
stays within the destination buffer unless noted otherwise. -/
def writeAt (dst : List Nat) (off : Nat) (src : List Nat) : List Nat :=
  dst.take off ++ src ++ dst.drop (off + src.length)

/-- CMAC/AES MIC block B0 size (lr1110-se.c line 40). -/
def MIC_BLOCK_BX_SIZE : Nat := 16

/-- Maximum message size handled by the crypto operations (line 45). -/
def CRYPTO_MAXMESSAGE_SIZE : Nat := 256

/-- Scratch buffer size for crypto operations (line 50). -/
def CRYPTO_BUFFER_SIZE : Nat := CRYPTO_MAXMESSAGE_SIZE + MIC_BLOCK_BX_SIZE

/-- Modelled from the spec: the maximum size of a join-accept frame with
an optional channel list; the constant LORAMAC_JOIN_ACCEPT_FRAME_MAX_SIZE
comes from a LoRaMac header that is not part of this repository. The
claims depend only on the bound being some fixed value. -/
def LORAMAC_JOIN_ACCEPT_FRAME_MAX_SIZE : Nat := 33

/-- Modelled from the spec: the JoinEUI field size in bytes; the constant
LORAMAC_JOIN_EUI_FIELD_SIZE comes from a LoRaMac header that is not part
of this repository. -/
def LORAMAC_JOIN_EUI_FIELD_SIZE : Nat := 8

/-- Modelled from the spec: the numeric value of the regular join-request
type identifier JOIN_REQ (the enum lives in a LoRaMac header that is not
part of this repository); the claims depend only on it selecting the
NwkKey decryption branch. -/
def JOIN_REQ : Nat := 0xFF

/-- Modelled from the spec: size of the v1.1.x MIC computation header,
1 (request type) + 8 (JoinEUI) + 2 (DevNonce) + 1 (MHDR). -/
def JOIN_ACCEPT_MIC_COMPUTATION_OFFSET : Nat := 12

/-- One call to the engine operation lr1110_crypto_process_join_accept:
the decryption key slot, the MIC verification key slot, the LoRaWAN
version tag, the MIC header bytes and the encrypted frame body handed to
the engine. -/
structure JoinAcceptCall where
  encKey : lr1110_crypto_keys_idx_t
  micKey : lr1110_crypto_keys_idx_t
  lorawanVersion : Nat
  micHeader : List Nat
  encBody : List Nat
deriving DecidableEq

/-- The engine delegate for join-accept processing: from the call
arguments it produces a status and the bytes it writes into the
decrypted-body output buffer. -/
def JoinAcceptDelegate : Type :=
  JoinAcceptCall → SecureElementStatus_t × List Nat

/-- Result of SecureElementProcessJoinAccept: the returned status, the
final contents of the caller's decJoinAccept buffer and versionMinor
cell (None models a null pointer, in which case nothing was written),
and the engine calls made, in order. -/
structure JoinAcceptResult where
  status : SecureElementStatus_t
  decJoinAccept : Option (List Nat)
  versionMinor : Option Nat
  calls : List JoinAcceptCall
deriving DecidableEq

/-- The decryption key chosen at lines 300 to 305: NwkKey for a regular
join request, JSEncKey otherwise. -/
def joinAcceptEncKey (joinReqType : Nat) : KeyIdentifier_t :=
  if joinReqType ≠ JOIN_REQ then .J_S_ENC_KEY else .NWK_KEY

/-- The frame body handed to the engine: the bytes after the leading
MHDR byte, of length encJoinAcceptSize - 1 (pointer encJoinAccept + 1 in
the source). -/
def joinAcceptBody (enc : List Nat) (encJoinAcceptSize : Nat) : List Nat :=
  (enc.drop 1).take (encJoinAcceptSize - 1)

/-- The engine call of the v1.0.x trial (lines 311 to 319): version tag
0, the one-byte MIC header 0x20, NwkKey as MIC verification key. -/
def joinAcceptTrial1Call (joinReqType : Nat) (enc : List Nat)
    (encJoinAcceptSize : Nat) : JoinAcceptCall :=
  { encKey := convert_key_id_from_se_to_lr1110 (joinAcceptEncKey joinReqType)
    micKey := convert_key_id_from_se_to_lr1110 .NWK_KEY
    lorawanVersion := 0
    micHeader := [0x20]
    encBody := joinAcceptBody enc encJoinAcceptSize }

/-- The v1.1.x MIC header assembled at lines 333 to 346: the request
type byte (cast to uint8), the JoinEUI copied in reversed byte order by
memcpyr, DevNonce as two little-endian bytes, then the MHDR byte 0x20. -/
def micHeader11 (joinReqType : Nat) (joinEui : List Nat) (devNonce : Nat) : List Nat :=
  joinReqType % 256 ::
    ((joinEui.take LORAMAC_JOIN_EUI_FIELD_SIZE).reverse
      ++ [devNonce % 256, devNonce / 256 % 256, 0x20])

/-- The engine call of the v1.1.x trial (lines 348 to 351): version tag
1, the 12-byte MIC header, JSIntKey as MIC verification key. -/
def joinAcceptTrial2Call (joinReqType : Nat) (joinEui : List Nat) (devNonce : Nat)
    (enc : List Nat) (encJoinAcceptSize : Nat) : JoinAcceptCall :=
  { encKey := convert_key_id_from_se_to_lr1110 (joinAcceptEncKey joinReqType)
    micKey := convert_key_id_from_se_to_lr1110 .J_S_INT_KEY
    lorawanVersion := 1
    micHeader := micHeader11 joinReqType joinEui devNonce
    encBody := joinAcceptBody enc encJoinAcceptSize }

/-- The version bit test of lines 323 and 355: bit 0x80 of byte offset
11 of the decrypted frame (the DLSettings byte), read as the ternary
value written to versionMinor. -/
def versionBit (dec : List Nat) : Nat :=
  if dec.getD 11 0 &&& 0x80 = 0x80 then 1 else 0

/-- The v1.1.x trial, lines 331 to 362 (the build with
USE_LRWAN_1_1_X_CRYPTO enabled, the configuration the spec describes):
the engine writes the decrypted body at offset 1 of the output buffer;
on engine success versionMinor is overwritten with the version bit and
the engine status (success) is returned whether or not the bit is set;
on engine failure versionMinor keeps the value it had after the first
trial and the engine status is returned. -/
def joinAcceptTrial2 (d : JoinAcceptDelegate) (joinReqType : Nat) (joinEui : List Nat)
    (devNonce : Nat) (enc : List Nat) (encJoinAcceptSize : Nat)
    (decIn : List Nat) (vmIn : Nat) (callsIn : List JoinAcceptCall) : JoinAcceptResult :=
  let call2 := joinAcceptTrial2Call joinReqType joinEui devNonce enc encJoinAcceptSize
  let r2 := d call2
  let dec2 := writeAt decIn 1 r2.2
  if r2.1 = .SECURE_ELEMENT_SUCCESS then
    { status := r2.1
      decJoinAccept := some dec2
      versionMinor := some (versionBit dec2)
      calls := callsIn ++ [call2] }
  else
    { status := r2.1
      decJoinAccept := some dec2
      versionMinor := some vmIn
      calls := callsIn ++ [call2] }

/-- Embeds SecureElementProcessJoinAccept (lines 281 to 365). The three
checked pointers encJoinAccept, decJoinAccept and versionMinor are
Options whose Some value is the contents of the pointed-to storage on
entry; joinEui is the 8-byte JoinEUI the request used. -/
def SecureElementProcessJoinAccept (d : JoinAcceptDelegate)
    (joinReqType : Nat) (joinEui : List Nat) (devNonce : Nat)
    (encJoinAccept : Option (List Nat)) (encJoinAcceptSize : Nat)
    (decJoinAccept : Option (List Nat)) (versionMinor : Option Nat) : JoinAcceptResult :=
  match encJoinAccept, decJoinAccept, versionMinor with
  | some enc, some dec0, some vm0 =>
    if encJoinAcceptSize > LORAMAC_JOIN_ACCEPT_FRAME_MAX_SIZE then
      { status := .SECURE_ELEMENT_ERROR_BUF_SIZE
        decJoinAccept := some dec0
        versionMinor := some vm0
        calls := [] }
    else
      let call1 := joinAcceptTrial1Call joinReqType enc encJoinAcceptSize
      let r1 := d call1
      let dec1 := writeAt dec0 1 r1.2
      if r1.1 = .SECURE_ELEMENT_SUCCESS then
        if versionBit dec1 = 0 then
          { status := .SECURE_ELEMENT_SUCCESS
            decJoinAccept := some dec1
            versionMinor := some 0
            calls := [call1] }
        else
          joinAcceptTrial2 d joinReqType joinEui devNonce enc encJoinAcceptSize
            dec1 (versionBit dec1) [call1]
      else
        joinAcceptTrial2 d joinReqType joinEui devNonce enc encJoinAcceptSize
          dec1 vm0 [call1]
  | _, dec, vm =>
      { status := .SECURE_ELEMENT_ERROR_NPE
        decJoinAccept := dec
        versionMinor := vm
        calls := [] }

/-- Engine interactions of the key-storage operations, in order: a
derive-and-store engine call, a direct set-key engine call, or a
persist-to-flash engine call. -/
inductive KeyStoreEvent
  | derive (root target : lr1110_crypto_keys_idx_t) (input : List Nat)
  | setKey (slot : lr1110_crypto_keys_idx_t) (key : List Nat)
  | persist
deriving DecidableEq

/-- Embeds SecureElementSetKey (lines 170 to 202). deriveD and setD are
the statuses the engine reports for lr1110_crypto_derive_and_store_key
and lr1110_crypto_set_key; storeD is the status of
lr1110_crypto_store_to_flash. The key argument is None for a null
pointer. Returns the final status and the engine events in order. -/
def SecureElementSetKey
    (deriveD : lr1110_crypto_keys_idx_t → lr1110_crypto_keys_idx_t → List Nat → SecureElementStatus_t)
    (setD : lr1110_crypto_keys_idx_t → List Nat → SecureElementStatus_t)
    (storeD : SecureElementStatus_t)
    (keyID : KeyIdentifier_t) (key : Option (List Nat)) :
    SecureElementStatus_t × List KeyStoreEvent :=
  match key with
  | none => (.SECURE_ELEMENT_ERROR_NPE, [])
  | some k =>
    if keyID = .MC_KEY_0 ∨ keyID = .MC_KEY_1 ∨ keyID = .MC_KEY_2 ∨ keyID = .MC_KEY_3 then
      let root := convert_key_id_from_se_to_lr1110 .MC_KE_KEY
      let target := convert_key_id_from_se_to_lr1110 keyID
      let st := deriveD root target k
      if st = .SECURE_ELEMENT_SUCCESS then
        (storeD, [.derive root target k, .persist])
      else
        (st, [.derive root target k])
    else
      let slot := convert_key_id_from_se_to_lr1110 keyID
      let st := setD slot k
      if st = .SECURE_ELEMENT_SUCCESS then
        (storeD, [.setKey slot k, .persist])
      else
        (st, [.setKey slot k])

/-- Embeds SecureElementDeriveAndStoreKey (lines 263 to 279). The
version argument is unused by the body, as in the source. The source
calls lr1110_crypto_store_to_flash unconditionally after the derivation
call, overwriting the status variable, so the returned status is the
persistence status. -/
def SecureElementDeriveAndStoreKey
    (deriveD : lr1110_crypto_keys_idx_t → lr1110_crypto_keys_idx_t → List Nat → SecureElementStatus_t)
    (storeD : SecureElementStatus_t)
    (version : Nat) (input : Option (List Nat))
    (rootKeyID targetKeyID : KeyIdentifier_t) :
    SecureElementStatus_t × List KeyStoreEvent :=
  match input with
  | none => (.SECURE_ELEMENT_ERROR_NPE, [])
  | some inp =>
    let root := convert_key_id_from_se_to_lr1110 rootKeyID
    let target := convert_key_id_from_se_to_lr1110 targetKeyID
    let _ := deriveD root target inp
    let _ := version
    (storeD, [.derive root target inp, .persist])

/-- One call to the engine operation lr1110_crypto_compute_aes_cmac: the
key slot, the bytes the engine reads (the first size bytes at the passed
pointer) and the passed length. -/
structure CmacCall where
  key : lr1110_crypto_keys_idx_t
  buffer : List Nat
  size : Nat
deriving DecidableEq

/-- Embeds SecureElementComputeAesCmac (lines 204 to 228). cmacD is the
engine delegate producing a status and the 32-bit CMAC it writes. With a
MIC block present the source zero-fills a 272-byte scratch buffer, then
copies 16 MIC bytes and size payload bytes into it with no capacity
check whatever; when size exceeds CRYPTO_MAXMESSAGE_SIZE the second
memcpy1 writes past the scratch buffer, which is undefined behavior in
the source and is modelled as None. Otherwise the result carries the
engine status, the written CMAC and the single engine call. -/
def SecureElementComputeAesCmac
    (cmacD : CmacCall → SecureElementStatus_t × Nat)
    (micBxBuffer : Option (List Nat)) (buffer : List Nat) (size : Nat)
    (keyID : KeyIdentifier_t) :
    Option (SecureElementStatus_t × Nat × List CmacCall) :=
  match micBxBuffer with
  | none =>
    let call : CmacCall :=
      { key := convert_key_id_from_se_to_lr1110 keyID
        buffer := buffer.take size
        size := size }
    let r := cmacD call
    some (r.1, r.2, [call])
  | some micBx =>
    if size > CRYPTO_MAXMESSAGE_SIZE then
      none
    else
      let micBuff :=
        writeAt (writeAt (List.replicate CRYPTO_BUFFER_SIZE 0) 0 (micBx.take MIC_BLOCK_BX_SIZE))
          MIC_BLOCK_BX_SIZE (buffer.take size)
      let localSize := size + MIC_BLOCK_BX_SIZE
      let call : CmacCall :=
        { key := convert_key_id_from_se_to_lr1110 keyID
          buffer := micBuff.take localSize
          size := localSize }
      let r := cmacD call
      some (r.1, r.2, [call])

/-- DevEUI and JoinEUI field size (se-identity.h, per the spec: 8
bytes). -/
def SE_EUI_SIZE : Nat := 8

/-- Modelled from the spec: size of the secure-element PIN field; the
constant SE_PIN_SIZE comes from a header that is not part of this
repository (the LR1110 PIN is 4 bytes). The claims depend only on it
being some fixed value. -/
def SE_PIN_SIZE : Nat := 4

/-- The non-volatile identity context SecureElementNvCtx_t (lines 55 to
69): three consecutive byte arrays. -/
structure SecureElementNvCtx_t where
  DevEui : List Nat
  JoinEui : List Nat
  Pin : List Nat
deriving DecidableEq

/-- The byte image of the context struct: three uint8 arrays laid out
consecutively with no padding, so sizeof equals the sum of the field
sizes and a whole-struct memcpy reads or writes their concatenation. -/
def seCtxBytes (ctx : SecureElementNvCtx_t) : List Nat :=
  ctx.DevEui ++ ctx.JoinEui ++ ctx.Pin

/-- sizeof the context struct. -/
def seCtxSize : Nat := SE_EUI_SIZE + SE_EUI_SIZE + SE_PIN_SIZE

/-- The context obtained by memcpy of a blob over the whole struct:
each field receives its consecutive window of the blob. -/
def seCtxOfBytes (b : List Nat) : SecureElementNvCtx_t :=
  { DevEui := b.take SE_EUI_SIZE
    JoinEui := (b.drop SE_EUI_SIZE).take SE_EUI_SIZE
    Pin := (b.drop (SE_EUI_SIZE + SE_EUI_SIZE)).take SE_PIN_SIZE }

/-- Embeds SecureElementRestoreNvmCtx (lines 146 to 162). flashStatus is
the status lr1110_crypto_restore_from_flash reports; a null blob pointer
(None) yields the NPE error and leaves the context untouched; otherwise
the whole struct is overwritten by memcpy1 from the blob and the flash
status is returned. -/
def SecureElementRestoreNvmCtx (flashStatus : SecureElementStatus_t)
    (ctx : SecureElementNvCtx_t) (seNvmCtx : Option (List Nat)) :
    SecureElementStatus_t × SecureElementNvCtx_t :=
  match seNvmCtx with
  | none => (.SECURE_ELEMENT_ERROR_NPE, ctx)
  | some b => (flashStatus, seCtxOfBytes b)

/-- Embeds SecureElementGetNvmCtx (lines 164 to 168): writes sizeof the
context to the size output and returns the live context, whose stored
bytes are its struct image. -/
def SecureElementGetNvmCtx (ctx : SecureElementNvCtx_t) : List Nat × Nat :=
  (seCtxBytes ctx, seCtxSize)

/-- Embeds SecureElementSetDevEui (lines 377 to 386). cb counts the
invocations of the SeNvmCtxChanged callback; a null input (None) yields
NPE with nothing copied and no callback; otherwise exactly SE_EUI_SIZE
bytes are copied into the DevEui field and the callback runs once. -/
def SecureElementSetDevEui (ctx : SecureElementNvCtx_t) (cb : Nat)
    (devEui : Option (List Nat)) : SecureElementStatus_t × SecureElementNvCtx_t × Nat :=
  match devEui with
  | none => (.SECURE_ELEMENT_ERROR_NPE, ctx, cb)
  | some e => (.SECURE_ELEMENT_SUCCESS, { ctx with DevEui := e.take SE_EUI_SIZE }, cb + 1)

/-- Embeds SecureElementSetJoinEui (lines 393 to 402). -/
def SecureElementSetJoinEui (ctx : SecureElementNvCtx_t) (cb : Nat)
    (joinEui : Option (List Nat)) : SecureElementStatus_t × SecureElementNvCtx_t × Nat :=
  match joinEui with
  | none => (.SECURE_ELEMENT_ERROR_NPE, ctx, cb)
  | some e => (.SECURE_ELEMENT_SUCCESS, { ctx with JoinEui := e.take SE_EUI_SIZE }, cb + 1)

/-- Embeds SecureElementSetPin (lines 409 to 419). -/
def SecureElementSetPin (ctx : SecureElementNvCtx_t) (cb : Nat)
    (pin : Option (List Nat)) : SecureElementStatus_t × SecureElementNvCtx_t × Nat :=
  match pin with
  | none => (.SECURE_ELEMENT_ERROR_NPE, ctx, cb)
  | some p => (.SECURE_ELEMENT_SUCCESS, { ctx with Pin := p.take SE_PIN_SIZE }, cb + 1)

/-- Serializing the context read back from a blob of exactly the struct
size reproduces the blob. -/
theorem seCtxBytes_seCtxOfBytes (b : List Nat) (h : b.length = seCtxSize) :
    seCtxBytes (seCtxOfBytes b) = b := by
  simp only [seCtxBytes, seCtxOfBytes]
  have h3 : (b.drop (SE_EUI_SIZE + SE_EUI_SIZE)).take SE_PIN_SIZE
      = b.drop (SE_EUI_SIZE + SE_EUI_SIZE) := by
    apply List.take_of_length_le
    simp only [List.length_drop, h, seCtxSize, SE_EUI_SIZE, SE_PIN_SIZE]
    omega
  rw [h3]
  have hdd : b.drop (SE_EUI_SIZE + SE_EUI_SIZE) = (b.drop SE_EUI_SIZE).drop SE_EUI_SIZE :=
    (List.drop_drop SE_EUI_SIZE SE_EUI_SIZE b).symm
  rw [hdd, List.append_assoc, List.take_append_drop, List.take_append_drop]

/-- C7: the key-identifier to engine-slot mapping is total (every
identifier, the undeclared ones included, yields an engine slot),
deterministic across repeated calls, and maps every identifier outside
the declared enumeration to the one default slot GP1. -/
theorem C7_key_id_mapping_total_and_default :
    (∀ k : KeyIdentifier_t, ∃ s : lr1110_crypto_keys_idx_t,
        convert_key_id_from_se_to_lr1110 k = s)
    ∧ (∀ k : KeyIdentifier_t,
        convert_key_id_from_se_to_lr1110 k = convert_key_id_from_se_to_lr1110 k)
    ∧ (∀ n : Nat, convert_key_id_from_se_to_lr1110 (.UNKNOWN n) = .GP1) :=
  ⟨fun k => ⟨convert_key_id_from_se_to_lr1110 k, rfl⟩, fun _ => rfl, fun _ => rfl⟩

/-- C5: SecureElementProcessJoinAccept fails with the NPE error whenever
any of the checked buffer pointers is null, making no engine call; and
with encJoinAcceptSize above the join-accept maximum it fails with the
buffer-size error, leaving the output buffers untouched and making no
engine call. -/
theorem C5_join_accept_input_validation :
    (∀ (d : JoinAcceptDelegate) (jrt : Nat) (je : List Nat) (dn : Nat)
        (enc : Option (List Nat)) (size : Nat) (dec : Option (List Nat)) (vm : Option Nat),
        (enc = none ∨ dec = none ∨ vm = none) →
        (SecureElementProcessJoinAccept d jrt je dn enc size dec vm).status
            = .SECURE_ELEMENT_ERROR_NPE
          ∧ (SecureElementProcessJoinAccept d jrt je dn enc size dec vm).calls = [])
    ∧ (∀ (d : JoinAcceptDelegate) (jrt : Nat) (je : List Nat) (dn : Nat)
        (enc : List Nat) (size : Nat) (dec0 : List Nat) (vm0 : Nat),
        size > LORAMAC_JOIN_ACCEPT_FRAME_MAX_SIZE →
        SecureElementProcessJoinAccept d jrt je dn (some enc) size (some dec0) (some vm0)
          = { status := .SECURE_ELEMENT_ERROR_BUF_SIZE
              decJoinAccept := some dec0
              versionMinor := some vm0
              calls := [] }) := by
  constructor
  · intro d jrt je dn enc size dec vm h
    rcases h with h | h | h
    · subst h; cases dec <;> cases vm <;> simp [SecureElementProcessJoinAccept]
    · subst h; cases enc <;> cases vm <;> simp [SecureElementProcessJoinAccept]
    · subst h; cases enc <;> cases dec <;> simp [SecureElementProcessJoinAccept]
  · intro d jrt je dn enc size dec0 vm0 h
    simp [SecureElementProcessJoinAccept, h]

/-- Witness for C5: a null frame pointer yields NPE with no engine call,
and size 34 (one above the maximum 33) yields the buffer-size error with
no engine call and the buffers untouched. -/
theorem C5_witness :
    ((SecureElementProcessJoinAccept (fun _ => (.SECURE_ELEMENT_SUCCESS, [])) 255 [] 0
        none 17 none none).status = .SECURE_ELEMENT_ERROR_NPE
      ∧ (SecureElementProcessJoinAccept (fun _ => (.SECURE_ELEMENT_SUCCESS, [])) 255 [] 0
        none 17 none none).calls = [])
    ∧ SecureElementProcessJoinAccept (fun _ => (.SECURE_ELEMENT_SUCCESS, [])) 255 [] 0
        (some (List.replicate 34 0)) 34 (some (List.replicate 34 0)) (some 0)
      = { status := .SECURE_ELEMENT_ERROR_BUF_SIZE
          decJoinAccept := some (List.replicate 34 0)
          versionMinor := some 0
          calls := [] } :=
  ⟨C5_join_accept_input_validation.1 _ _ _ _ none 17 none none (Or.inl rfl),
   C5_join_accept_input_validation.2 _ _ _ _ _ 34 _ _ (by decide)⟩

/-- C8: each identity setter fails with NPE on a null input, leaving the
context and the callback count unchanged; on a non-null input it copies
exactly the fixed-size field, runs the change callback exactly once and
returns success. -/
theorem C8_identity_setters (ctx : SecureElementNvCtx_t) (cb : Nat) :
    SecureElementSetDevEui ctx cb none = (.SECURE_ELEMENT_ERROR_NPE, ctx, cb)
    ∧ SecureElementSetJoinEui ctx cb none = (.SECURE_ELEMENT_ERROR_NPE, ctx, cb)
    ∧ SecureElementSetPin ctx cb none = (.SECURE_ELEMENT_ERROR_NPE, ctx, cb)
    ∧ (∀ e : List Nat, e.length = SE_EUI_SIZE →
        SecureElementSetDevEui ctx cb (some e)
          = (.SECURE_ELEMENT_SUCCESS, ⟨e, ctx.JoinEui, ctx.Pin⟩, cb + 1))
    ∧ (∀ e : List Nat, e.length = SE_EUI_SIZE →
        SecureElementSetJoinEui ctx cb (some e)
          = (.SECURE_ELEMENT_SUCCESS, ⟨ctx.DevEui, e, ctx.Pin⟩, cb + 1))
    ∧ (∀ p : List Nat, p.length = SE_PIN_SIZE →
        SecureElementSetPin ctx cb (some p)
          = (.SECURE_ELEMENT_SUCCESS, ⟨ctx.DevEui, ctx.JoinEui, p⟩, cb + 1)) := by
  refine ⟨rfl, rfl, rfl, ?_, ?_, ?_⟩
  · intro e he
    have ht : e.take SE_EUI_SIZE = e := List.take_of_length_le he.le
    simp [SecureElementSetDevEui, ht]
  · intro e he
    have ht : e.take SE_EUI_SIZE = e := List.take_of_length_le he.le
    simp [SecureElementSetJoinEui, ht]
  · intro p hp
    have ht : p.take SE_PIN_SIZE = p := List.take_of_length_le hp.le
    simp [SecureElementSetPin, ht]

/-- Witness for C8: at a concrete context, the null DevEui setter call
fails with NPE leaving everything unchanged, and a concrete 4-byte PIN
is copied with one callback invocation. -/
theorem C8_witness :
    SecureElementSetDevEui ⟨List.replicate 8 0, List.replicate 8 0, List.replicate 4 0⟩ 5 none
      = (.SECURE_ELEMENT_ERROR_NPE, ⟨List.replicate 8 0, List.replicate 8 0, List.replicate 4 0⟩, 5)
    ∧ SecureElementSetPin ⟨List.replicate 8 0, List.replicate 8 0, List.replicate 4 0⟩ 5
        (some [1, 2, 3, 4])
      = (.SECURE_ELEMENT_SUCCESS, ⟨List.replicate 8 0, List.replicate 8 0, [1, 2, 3, 4]⟩, 6) :=
  ⟨(C8_identity_setters ⟨List.replicate 8 0, List.replicate 8 0, List.replicate 4 0⟩ 5).1,
   (C8_identity_setters ⟨List.replicate 8 0, List.replicate 8 0, List.replicate 4 0⟩ 5).2.2.2.2.2
     [1, 2, 3, 4] (by decide)⟩

/-- C9: restoring the context from a non-null blob of exactly the
serialized context size and then taking the snapshot yields content
byte-identical to the blob, with the reported size equal to the
serialized context size. -/
theorem C9_restore_snapshot_roundtrip (st : SecureElementStatus_t)
    (ctx : SecureElementNvCtx_t) (blob : List Nat) (h : blob.length = seCtxSize) :
    SecureElementGetNvmCtx (SecureElementRestoreNvmCtx st ctx (some blob)).2
      = (blob, seCtxSize) := by
  simp only [SecureElementRestoreNvmCtx, SecureElementGetNvmCtx]
  rw [seCtxBytes_seCtxOfBytes blob h]

/-- Witness for C9: a concrete 20-byte blob round-trips through restore
and snapshot. -/
theorem C9_witness :
    SecureElementGetNvmCtx
        (SecureElementRestoreNvmCtx .SECURE_ELEMENT_SUCCESS
          ⟨List.replicate 8 0, List.replicate 8 0, List.replicate 4 0⟩
          (some (List.range 20))).2
      = (List.range 20, seCtxSize) :=
  C9_restore_snapshot_roundtrip _ _ _ (by decide)

/-- C1: for every join-accept frame within the size bound whose v1.0.x
trial succeeds and whose decrypted plaintext has bit 0x80 of byte offset
11 clear, the function returns success with versionMinor 0 after exactly
one engine call (the v1.1.x trial is never attempted); the single call
carries the one-byte MIC header 0x20 and NwkKey as the MIC verification
key. -/
theorem C1_join_accept_v10_terminates (d : JoinAcceptDelegate)
    (jrt : Nat) (je : List Nat) (dn : Nat) (enc dec0 : List Nat) (size vm0 : Nat)
    (hsize : ¬ size > LORAMAC_JOIN_ACCEPT_FRAME_MAX_SIZE)
    (h1 : (d (joinAcceptTrial1Call jrt enc size)).1 = .SECURE_ELEMENT_SUCCESS)
    (hbit : versionBit (writeAt dec0 1 (d (joinAcceptTrial1Call jrt enc size)).2) = 0) :
    SecureElementProcessJoinAccept d jrt je dn (some enc) size (some dec0) (some vm0)
        = { status := .SECURE_ELEMENT_SUCCESS
            decJoinAccept := some (writeAt dec0 1 (d (joinAcceptTrial1Call jrt enc size)).2)
            versionMinor := some 0
            calls := [joinAcceptTrial1Call jrt enc size] }
      ∧ (joinAcceptTrial1Call jrt enc size).micHeader = [0x20]
      ∧ (joinAcceptTrial1Call jrt enc size).micKey
          = convert_key_id_from_se_to_lr1110 .NWK_KEY := by
  refine ⟨?_, rfl, rfl⟩
  simp only [SecureElementProcessJoinAccept]
  rw [if_neg hsize, if_pos h1, if_pos hbit]

/-- Witness for C1: a concrete engine that accepts the v1.0.x trial and
decrypts to all-zero bytes (version bit clear) leads to success with
versionMinor 0 and a single engine call. -/
theorem C1_witness :
    SecureElementProcessJoinAccept
        (fun _ => (.SECURE_ELEMENT_SUCCESS, List.replicate 16 0))
        255 (List.replicate 8 1) 0
        (some (List.replicate 17 2)) 17 (some (List.replicate 17 0)) (some 5)
      = { status := .SECURE_ELEMENT_SUCCESS
          decJoinAccept := some (writeAt (List.replicate 17 0) 1 (List.replicate 16 0))
          versionMinor := some 0
          calls := [joinAcceptTrial1Call 255 (List.replicate 17 2) 17] } :=
  (C1_join_accept_v10_terminates _ 255 (List.replicate 8 1) 0 _ _ 17 5
    (by decide) rfl (by decide)).1

/-- C2: for every join-accept frame within the size bound whose v1.0.x
trial fails or yields a set version bit, and whose v1.1.x trial succeeds
with bit 0x80 of byte offset 11 set, the function returns success with
versionMinor 1 after two engine calls; the second call uses JSIntKey as
the MIC verification key and the MIC header assembled as the
join-request-type byte, the JoinEUI in reversed byte order, DevNonce as
two little-endian bytes, then the MHDR byte 0x20. -/
theorem C2_join_accept_v11_terminates (d : JoinAcceptDelegate)
    (jrt : Nat) (je : List Nat) (dn : Nat) (enc dec0 : List Nat) (size vm0 : Nat)
    (hsize : ¬ size > LORAMAC_JOIN_ACCEPT_FRAME_MAX_SIZE)
    (hjrt : jrt < 256) (hdn : dn < 65536) (hje : je.length = 8)
    (h1 : (d (joinAcceptTrial1Call jrt enc size)).1 ≠ .SECURE_ELEMENT_SUCCESS
        ∨ versionBit (writeAt dec0 1 (d (joinAcceptTrial1Call jrt enc size)).2) = 1)
    (h2 : (d (joinAcceptTrial2Call jrt je dn enc size)).1 = .SECURE_ELEMENT_SUCCESS)
    (hbit2 : versionBit (writeAt (writeAt dec0 1 (d (joinAcceptTrial1Call jrt enc size)).2) 1
        (d (joinAcceptTrial2Call jrt je dn enc size)).2) = 1) :
    (SecureElementProcessJoinAccept d jrt je dn (some enc) size (some dec0) (some vm0)).status
        = .SECURE_ELEMENT_SUCCESS
    ∧ (SecureElementProcessJoinAccept d jrt je dn (some enc) size (some dec0)
        (some vm0)).versionMinor = some 1
    ∧ (SecureElementProcessJoinAccept d jrt je dn (some enc) size (some dec0)
        (some vm0)).calls
        = [joinAcceptTrial1Call jrt enc size, joinAcceptTrial2Call jrt je dn enc size]
    ∧ (joinAcceptTrial2Call jrt je dn enc size).micKey
        = convert_key_id_from_se_to_lr1110 .J_S_INT_KEY
    ∧ (joinAcceptTrial2Call jrt je dn enc size).micHeader
        = jrt :: (je.reverse ++ [dn % 256, dn / 256, 0x20]) := by
  have hres : SecureElementProcessJoinAccept d jrt je dn (some enc) size (some dec0) (some vm0)
      = { status := .SECURE_ELEMENT_SUCCESS
          decJoinAccept := some (writeAt (writeAt dec0 1 (d (joinAcceptTrial1Call jrt enc size)).2)
            1 (d (joinAcceptTrial2Call jrt je dn enc size)).2)
          versionMinor := some 1
          calls := [joinAcceptTrial1Call jrt enc size,
            joinAcceptTrial2Call jrt je dn enc size] } := by
    simp only [SecureElementProcessJoinAccept]
    rw [if_neg hsize]
    by_cases hc : (d (joinAcceptTrial1Call jrt enc size)).1 = .SECURE_ELEMENT_SUCCESS
    · rw [if_pos hc]
      have hb1 : versionBit (writeAt dec0 1 (d (joinAcceptTrial1Call jrt enc size)).2) = 1 :=
        h1.resolve_left (not_not_intro hc)
      rw [if_neg (by simp [hb1])]
      simp only [joinAcceptTrial2]
      rw [if_pos h2]
      simp [h2, hbit2]
    · rw [if_neg hc]
      simp only [joinAcceptTrial2]
      rw [if_pos h2]
      simp [h2, hbit2]
  have hhdr : (joinAcceptTrial2Call jrt je dn enc size).micHeader
      = jrt :: (je.reverse ++ [dn % 256, dn / 256, 0x20]) := by
    simp only [joinAcceptTrial2Call, micHeader11, LORAMAC_JOIN_EUI_FIELD_SIZE]
    rw [Nat.mod_eq_of_lt hjrt, List.take_of_length_le hje.le,
      Nat.mod_eq_of_lt (Nat.div_lt_of_lt_mul (by omega))]
  exact ⟨by rw [hres], by rw [hres], by rw [hres], rfl, hhdr⟩

/-- Witness for C2: a concrete engine that rejects the v1.0.x trial and
accepts the v1.1.x trial with the version bit set leads to success with
versionMinor 1 after two engine calls, the second with JSIntKey and the
assembled 12-byte MIC header. -/
theorem C2_witness :
    (SecureElementProcessJoinAccept
        (fun c => if c.lorawanVersion = 0 then (.SECURE_ELEMENT_FAIL_CMAC, List.replicate 16 0)
          else (.SECURE_ELEMENT_SUCCESS, List.replicate 16 128))
        0 [1, 2, 3, 4, 5, 6, 7, 8] 258
        (some (List.replicate 17 2)) 17 (some (List.replicate 17 0)) (some 7)).status
        = .SECURE_ELEMENT_SUCCESS
    ∧ (SecureElementProcessJoinAccept
        (fun c => if c.lorawanVersion = 0 then (.SECURE_ELEMENT_FAIL_CMAC, List.replicate 16 0)
          else (.SECURE_ELEMENT_SUCCESS, List.replicate 16 128))
        0 [1, 2, 3, 4, 5, 6, 7, 8] 258
        (some (List.replicate 17 2)) 17 (some (List.replicate 17 0)) (some 7)).versionMinor
        = some 1
    ∧ (SecureElementProcessJoinAccept
        (fun c => if c.lorawanVersion = 0 then (.SECURE_ELEMENT_FAIL_CMAC, List.replicate 16 0)
          else (.SECURE_ELEMENT_SUCCESS, List.replicate 16 128))
        0 [1, 2, 3, 4, 5, 6, 7, 8] 258
        (some (List.replicate 17 2)) 17 (some (List.replicate 17 0)) (some 7)).calls
        = [joinAcceptTrial1Call 0 (List.replicate 17 2) 17,
           joinAcceptTrial2Call 0 [1, 2, 3, 4, 5, 6, 7, 8] 258 (List.replicate 17 2) 17]
    ∧ (joinAcceptTrial2Call 0 [1, 2, 3, 4, 5, 6, 7, 8] 258 (List.replicate 17 2) 17).micKey
        = convert_key_id_from_se_to_lr1110 .J_S_INT_KEY
    ∧ (joinAcceptTrial2Call 0 [1, 2, 3, 4, 5, 6, 7, 8] 258 (List.replicate 17 2) 17).micHeader
        = 0 :: ([1, 2, 3, 4, 5, 6, 7, 8].reverse ++ [258 % 256, 258 / 256, 0x20]) :=
  C2_join_accept_v11_terminates _ 0 [1, 2, 3, 4, 5, 6, 7, 8] 258 _ _ 17 7
    (by decide) (by decide) (by decide) (by decide)
    (Or.inl (by decide)) (by decide) (by decide)

/-- C10: when the v1.0.x trial succeeds with the version bit set (so the
trial falls through after writing versionMinor 1) and the v1.1.x trial
then also succeeds but its decrypted plaintext has the version bit
clear, the function returns the last engine status, success, with
versionMinor overwritten to 0 after two engine calls: success is
reported although neither trial yielded a self-consistent version bit,
and versionMinor was written on trial paths that did not terminate
successfully. -/
theorem C10_join_accept_ambiguous_success (d : JoinAcceptDelegate)
    (jrt : Nat) (je : List Nat) (dn : Nat) (enc dec0 : List Nat) (size vm0 : Nat)
    (hsize : ¬ size > LORAMAC_JOIN_ACCEPT_FRAME_MAX_SIZE)
    (h1 : (d (joinAcceptTrial1Call jrt enc size)).1 = .SECURE_ELEMENT_SUCCESS)
    (hb1 : versionBit (writeAt dec0 1 (d (joinAcceptTrial1Call jrt enc size)).2) = 1)
    (h2 : (d (joinAcceptTrial2Call jrt je dn enc size)).1 = .SECURE_ELEMENT_SUCCESS)
    (hb2 : versionBit (writeAt (writeAt dec0 1 (d (joinAcceptTrial1Call jrt enc size)).2) 1
        (d (joinAcceptTrial2Call jrt je dn enc size)).2) = 0) :
    SecureElementProcessJoinAccept d jrt je dn (some enc) size (some dec0) (some vm0)
      = { status := .SECURE_ELEMENT_SUCCESS
          decJoinAccept := some (writeAt (writeAt dec0 1 (d (joinAcceptTrial1Call jrt enc size)).2)
            1 (d (joinAcceptTrial2Call jrt je dn enc size)).2)
          versionMinor := some 0
          calls := [joinAcceptTrial1Call jrt enc size,
            joinAcceptTrial2Call jrt je dn enc size] } := by
  simp only [SecureElementProcessJoinAccept]
  rw [if_neg hsize, if_pos h1, if_neg (by simp [hb1])]
  simp only [joinAcceptTrial2]
  rw [if_pos h2]
  simp [h2, hb2]

/-- Witness for C10: a concrete engine that accepts the v1.0.x trial
with the bit set and the v1.1.x trial with the bit clear makes the
function report success with versionMinor 0 after two calls. -/
theorem C10_witness :
    SecureElementProcessJoinAccept
        (fun c => if c.lorawanVersion = 0 then (.SECURE_ELEMENT_SUCCESS, List.replicate 16 128)
          else (.SECURE_ELEMENT_SUCCESS, List.replicate 16 0))
        255 (List.replicate 8 1) 0
        (some (List.replicate 17 2)) 17 (some (List.replicate 17 0)) (some 7)
      = { status := .SECURE_ELEMENT_SUCCESS
          decJoinAccept := some (writeAt (writeAt (List.replicate 17 0) 1 (List.replicate 16 128))
            1 (List.replicate 16 0))
          versionMinor := some 0
          calls := [joinAcceptTrial1Call 255 (List.replicate 17 2) 17,
            joinAcceptTrial2Call 255 (List.replicate 8 1) 0 (List.replicate 17 2) 17] } :=
  C10_join_accept_ambiguous_success _ 255 (List.replicate 8 1) 0 _ _ 17 7
    (by decide) (by decide) (by decide) (by decide) (by decide)

/-- C3 counterexample: at a concrete input where the derivation delegate
reports failure, SecureElementDeriveAndStoreKey still makes the
persistence call (the event list ends with persist) and returns the
persistence status, refuting the claim that a failed derivation attempts
no persistence. -/
theorem C3_counterexample :
    SecureElementDeriveAndStoreKey (fun _ _ _ => .SECURE_ELEMENT_ERROR)
        .SECURE_ELEMENT_SUCCESS 0 (some [1]) .NWK_KEY .APP_S_KEY
      = (.SECURE_ELEMENT_SUCCESS, [.derive .NWK_KEY .APP_S_KEY [1], .persist]) := rfl

/-- C3 as amended: in SecureElementDeriveAndStoreKey, for every non-null
input, the persistence delegate call is made unconditionally after the
derivation delegate call, whether or not derivation succeeded, and the
returned status is the persistence status (the derivation status is
overwritten). -/
theorem C3_amended_persist_unconditional
    (deriveD : lr1110_crypto_keys_idx_t → lr1110_crypto_keys_idx_t → List Nat → SecureElementStatus_t)
    (storeD : SecureElementStatus_t) (version : Nat) (inp : List Nat)
    (rootKeyID targetKeyID : KeyIdentifier_t) :
    SecureElementDeriveAndStoreKey deriveD storeD version (some inp) rootKeyID targetKeyID
      = (storeD,
         [.derive (convert_key_id_from_se_to_lr1110 rootKeyID)
            (convert_key_id_from_se_to_lr1110 targetKeyID) inp, .persist]) := rfl

/-- C4 counterexample: at payload size 241 with a MIC block present, the
claimed buffer-capacity failure does not happen: the copy stays inside
the 272-byte scratch buffer, the engine is invoked over the 257-byte
concatenation, and the engine status (success here) is returned. -/
theorem C4_counterexample :
    SecureElementComputeAesCmac (fun _ => (.SECURE_ELEMENT_SUCCESS, 0))
        (some (List.replicate 16 3)) (List.replicate 241 5) 241 .NWK_KEY
      = some (.SECURE_ELEMENT_SUCCESS, 0,
          [{ key := .NWK_KEY
             buffer := List.replicate 16 3 ++ List.replicate 241 5
             size := 257 }]) := by decide

/-- C4 as amended: SecureElementComputeAesCmac performs no capacity
check at all. With a 16-byte MIC block present and any payload size S up
to 256 (the region where the unchecked copies stay inside the scratch
buffer; beyond it the source overruns the buffer, which is undefined
behavior), the engine delegate is always invoked over the concatenation
micBlock followed by buffer, of length S + 16, and its status is
returned; in particular S = 241 succeeds rather than failing. -/
theorem C4_amended_no_capacity_check
    (cmacD : CmacCall → SecureElementStatus_t × Nat)
    (micBx buffer : List Nat) (size : Nat) (keyID : KeyIdentifier_t)
    (hm : micBx.length = MIC_BLOCK_BX_SIZE) (hb : buffer.length = size)
    (hs : size ≤ CRYPTO_MAXMESSAGE_SIZE) :
    SecureElementComputeAesCmac cmacD (some micBx) buffer size keyID
      = some ((cmacD { key := convert_key_id_from_se_to_lr1110 keyID
                       buffer := micBx ++ buffer
                       size := size + MIC_BLOCK_BX_SIZE }).1,
              (cmacD { key := convert_key_id_from_se_to_lr1110 keyID
                       buffer := micBx ++ buffer
                       size := size + MIC_BLOCK_BX_SIZE }).2,
              [{ key := convert_key_id_from_se_to_lr1110 keyID
                 buffer := micBx ++ buffer
                 size := size + MIC_BLOCK_BX_SIZE }]) := by
  have htm : micBx.take MIC_BLOCK_BX_SIZE = micBx := List.take_of_length_le hm.le
  have htb : buffer.take size = buffer := List.take_of_length_le hb.le
  have hscratch :
      (writeAt (writeAt (List.replicate CRYPTO_BUFFER_SIZE 0) 0 (micBx.take MIC_BLOCK_BX_SIZE))
        MIC_BLOCK_BX_SIZE (buffer.take size)).take (size + MIC_BLOCK_BX_SIZE)
      = micBx ++ buffer := by
    rw [htm, htb]
    simp only [writeAt, List.take_zero, List.nil_append, Nat.zero_add]
    have h1 : (micBx ++ (List.replicate CRYPTO_BUFFER_SIZE 0).drop micBx.length).take
        MIC_BLOCK_BX_SIZE = micBx := by
      rw [← hm]
      exact List.take_left _ _
    rw [h1]
    have h2 : size + MIC_BLOCK_BX_SIZE = micBx.length + size := by omega
    rw [h2, List.append_assoc, List.take_append, ← hb, List.take_left]
  simp only [SecureElementComputeAesCmac]
  rw [if_neg (by omega)]
  rw [hscratch]

/-- Witness for C4 as amended: at the boundary payload size 240 with a
concrete MIC block and engine, the engine is invoked over the 256-byte
concatenation and its status returned. -/
theorem C4_witness :
    SecureElementComputeAesCmac (fun _ => (.SECURE_ELEMENT_SUCCESS, 7))
        (some (List.replicate 16 3)) (List.replicate 240 5) 240 .APP_KEY
      = some (.SECURE_ELEMENT_SUCCESS, 7,
          [{ key := .APP_KEY
             buffer := List.replicate 16 3 ++ List.replicate 240 5
             size := 256 }]) :=
  C4_amended_no_capacity_check _ _ _ 240 .APP_KEY (by decide) (by decide) (by decide)

/-- C6: SecureElementSetKey with a multicast-family identifier never
stores the supplied bytes directly: it issues a derive call unwrapping
via the MC_KE_KEY slot into the target slot, followed by a persist call
exactly when derivation succeeded; with any other identifier it stores
the bytes directly with a set-key call, followed by a persist call
exactly when storage succeeded. -/
theorem C6_setKey_multicast_derive_then_persist
    (deriveD : lr1110_crypto_keys_idx_t → lr1110_crypto_keys_idx_t → List Nat → SecureElementStatus_t)
    (setD : lr1110_crypto_keys_idx_t → List Nat → SecureElementStatus_t)
    (storeD : SecureElementStatus_t) (k : List Nat) :
    (∀ keyID : KeyIdentifier_t,
        (keyID = .MC_KEY_0 ∨ keyID = .MC_KEY_1 ∨ keyID = .MC_KEY_2 ∨ keyID = .MC_KEY_3) →
        SecureElementSetKey deriveD setD storeD keyID (some k)
          = if deriveD (convert_key_id_from_se_to_lr1110 .MC_KE_KEY)
                (convert_key_id_from_se_to_lr1110 keyID) k = .SECURE_ELEMENT_SUCCESS
            then (storeD, [.derive (convert_key_id_from_se_to_lr1110 .MC_KE_KEY)
                (convert_key_id_from_se_to_lr1110 keyID) k, .persist])
            else (deriveD (convert_key_id_from_se_to_lr1110 .MC_KE_KEY)
                (convert_key_id_from_se_to_lr1110 keyID) k,
              [.derive (convert_key_id_from_se_to_lr1110 .MC_KE_KEY)
                (convert_key_id_from_se_to_lr1110 keyID) k]))
    ∧ (∀ keyID : KeyIdentifier_t,
        ¬(keyID = .MC_KEY_0 ∨ keyID = .MC_KEY_1 ∨ keyID = .MC_KEY_2 ∨ keyID = .MC_KEY_3) →
        SecureElementSetKey deriveD setD storeD keyID (some k)
          = if setD (convert_key_id_from_se_to_lr1110 keyID) k = .SECURE_ELEMENT_SUCCESS
            then (storeD, [.setKey (convert_key_id_from_se_to_lr1110 keyID) k, .persist])
            else (setD (convert_key_id_from_se_to_lr1110 keyID) k,
              [.setKey (convert_key_id_from_se_to_lr1110 keyID) k])) := by
  constructor
  · intro keyID h
    simp only [SecureElementSetKey]
    rw [if_pos h]
  · intro keyID h
    simp only [SecureElementSetKey]
    rw [if_neg h]

/-- Witness for C6: a failing derivation for MC_KEY_2 yields the derive
event alone (no direct store, no persist), and a successful direct store
for APP_KEY is followed by persist. -/
theorem C6_witness :
    SecureElementSetKey (fun _ _ _ => .SECURE_ELEMENT_ERROR)
        (fun _ _ => .SECURE_ELEMENT_SUCCESS) .SECURE_ELEMENT_SUCCESS .MC_KEY_2 (some [9])
      = (.SECURE_ELEMENT_ERROR, [.derive .GP_KE_KEY_4 .GP_KE_KEY_2 [9]])
    ∧ SecureElementSetKey (fun _ _ _ => .SECURE_ELEMENT_ERROR)
        (fun _ _ => .SECURE_ELEMENT_SUCCESS) .SECURE_ELEMENT_SUCCESS .APP_KEY (some [9])
      = (.SECURE_ELEMENT_SUCCESS, [.setKey .APP_KEY [9], .persist]) := by
  have h := C6_setKey_multicast_derive_then_persist (fun _ _ _ => .SECURE_ELEMENT_ERROR)
    (fun _ _ => .SECURE_ELEMENT_SUCCESS) .SECURE_ELEMENT_SUCCESS [9]
  exact ⟨by rw [h.1 .MC_KEY_2 (by decide)]; decide, by rw [h.2 .APP_KEY (by decide)]; decide⟩

end Lr1110Se
